import Mathlib

/-!
Shallow embedding of the scene-state core of the Browser-based 3D AI
Simulation Studio frontend (src/frontend/src/context/SceneContext.tsx and
the shared type declarations).  JavaScript numbers are modelled as `ℚ`;
optional TypeScript fields (`highlighted?`, `animating?`, params bags) are
modelled as `Option`.  The React dispatch queue is modelled explicitly:
`applyAction` produces the list of reducer actions it dispatches (plus the
timers it schedules via `setTimeout`), computed against the render
snapshot it closed over, and the reducer is folded over the dispatched
list.
-/

namespace Studio

/-- `Vector3` from the frontend type declarations: three numeric components. -/
structure Vector3 where
  x : ℚ
  y : ℚ
  z : ℚ
deriving DecidableEq, Repr

/-- `SceneObject` from the frontend type declarations.  `type` is the
ObjectType union, modelled as a string; `highlighted?`/`animating?` are
optional booleans (`none` = field absent).  The untouched optional
`material`/`properties` metadata fields are omitted: no reducer branch
reads or writes them. -/
structure SceneObject where
  id : String
  type : String
  name : String
  position : Vector3
  rotation : Vector3
  scale : Vector3
  color : String
  visible : Bool
  highlighted : Option Bool := none
  animating : Option Bool := none
deriving DecidableEq, Repr

/-- `CameraState` from the frontend type declarations. -/
structure CameraState where
  position : Vector3
  target : Vector3
  zoom : ℚ
deriving DecidableEq, Repr

/-- `LightingConfig` from the frontend type declarations. -/
structure LightingConfig where
  ambient_intensity : ℚ
  directional_intensity : ℚ
  directional_position : Vector3
deriving DecidableEq, Repr

/-- `EnvironmentConfig` from the frontend type declarations. -/
structure EnvironmentConfig where
  grid_visible : Bool
  grid_size : ℚ
  background_color : String
deriving DecidableEq, Repr

/-- `SceneData` from the frontend type declarations. -/
structure SceneData where
  objects : List SceneObject
  camera : CameraState
  lighting : LightingConfig
  environment : EnvironmentConfig
deriving DecidableEq, Repr

/-- `PromptHistoryEntry` (only the fields the reducer moves around matter:
the reducer prepends entries and truncates to 50; it never inspects
them). -/
structure PromptHistoryEntry where
  id : String
  prompt : String
  timestamp : ℚ
deriving DecidableEq, Repr

/-- The `cameraTransition` slice of `SceneState` in SceneContext.tsx. -/
structure CameraTransition where
  active : Bool
  targetPosition : Option Vector3 := none
  targetLookAt : Option Vector3 := none
deriving DecidableEq, Repr

/-- `SceneState` from SceneContext.tsx (the reducer state). -/
structure SceneState where
  sceneData : SceneData
  selectedObjectId : Option String
  promptHistory : List PromptHistoryEntry
  isLoading : Bool
  cameraTransition : CameraTransition
deriving DecidableEq, Repr

/-- `Partial<SceneObject>` as used by the `UPDATE_OBJECT` payload: `none`
means the field is absent from the update object. -/
structure ObjectUpdate where
  id : Option String := none
  type : Option String := none
  name : Option String := none
  position : Option Vector3 := none
  rotation : Option Vector3 := none
  scale : Option Vector3 := none
  color : Option String := none
  visible : Option Bool := none
  highlighted : Option Bool := none
  animating : Option Bool := none
deriving DecidableEq, Repr

/-- `{ ...obj, ...updates }` for an `UPDATE_OBJECT` payload. -/
def applyUpdate (o : SceneObject) (u : ObjectUpdate) : SceneObject :=
  { id := u.id.getD o.id
    type := u.type.getD o.type
    name := u.name.getD o.name
    position := u.position.getD o.position
    rotation := u.rotation.getD o.rotation
    scale := u.scale.getD o.scale
    color := u.color.getD o.color
    visible := u.visible.getD o.visible
    highlighted := match u.highlighted with
      | some b => some b
      | none => o.highlighted
    animating := match u.animating with
      | some b => some b
      | none => o.animating }

/-- `Partial<CameraState>` for the `SET_CAMERA` payload. -/
structure CameraUpdate where
  position : Option Vector3 := none
  target : Option Vector3 := none
  zoom : Option ℚ := none
deriving DecidableEq, Repr

/-- `Partial<LightingConfig>` for the `SET_LIGHTING` payload. -/
structure LightingUpdate where
  ambient_intensity : Option ℚ := none
  directional_intensity : Option ℚ := none
  directional_position : Option Vector3 := none
deriving DecidableEq, Repr

/-- `Partial<EnvironmentConfig>` for the `SET_ENVIRONMENT` payload. -/
structure EnvironmentUpdate where
  grid_visible : Option Bool := none
  grid_size : Option ℚ := none
  background_color : Option String := none
deriving DecidableEq, Repr

/-- `SceneContextAction`: the reducer's action union from
SceneContext.tsx. -/
inductive SceneContextAction where
  | setSceneData (payload : SceneData)
  | addObject (payload : SceneObject)
  | removeObject (payload : String)
  | updateObject (id : String) (updates : ObjectUpdate)
  | selectObject (payload : Option String)
  | setCamera (payload : CameraUpdate)
  | setLighting (payload : LightingUpdate)
  | setEnvironment (payload : EnvironmentUpdate)
  | addPromptHistory (payload : PromptHistoryEntry)
  | setLoading (payload : Bool)
  | setCameraTransition (payload : CameraTransition)
  | resetScene (keepDefaults : Bool)
deriving DecidableEq, Repr

/-- `defaultCamera` constant from SceneContext.tsx. -/
def defaultCamera : CameraState :=
  { position := { x := 15, y := 12, z := 15 }
    target := { x := 0, y := 1, z := 0 }
    zoom := 1 }

/-- `defaultLighting` constant from SceneContext.tsx. -/
def defaultLighting : LightingConfig :=
  { ambient_intensity := 2/5
    directional_intensity := 4/5
    directional_position := { x := 10, y := 20, z := 10 } }

/-- `defaultEnvironment` constant from SceneContext.tsx. -/
def defaultEnvironment : EnvironmentConfig :=
  { grid_visible := true
    grid_size := 50
    background_color := "#1a1a2e" }

/-- The canonical default conveyor belt object from `createInitialScene`. -/
def conveyorDefault : SceneObject :=
  { id := "conveyor_1"
    type := "conveyor"
    name := "Main Conveyor Belt"
    position := { x := 0, y := 1/2, z := 0 }
    rotation := { x := 0, y := 0, z := 0 }
    scale := { x := 1, y := 1, z := 1 }
    color := "#4a5568"
    visible := true }

/-- The canonical default robot arm object from `createInitialScene`. -/
def robotArmDefault : SceneObject :=
  { id := "robot_arm_1"
    type := "robot_arm"
    name := "Industrial Robot Arm"
    position := { x := -5, y := 0, z := 0 }
    rotation := { x := 0, y := 45, z := 0 }
    scale := { x := 1, y := 1, z := 1 }
    color := "#f59e0b"
    visible := true }

/-- `createInitialScene` from SceneContext.tsx: the two canonical default
objects (conveyor belt and robot arm) plus the default camera, lighting
and environment. -/
def createInitialScene : SceneData :=
  { objects := [conveyorDefault, robotArmDefault]
    camera := defaultCamera
    lighting := defaultLighting
    environment := defaultEnvironment }

/-- The provider's initial reducer state in SceneContext.tsx. -/
def initialState : SceneState :=
  { sceneData := createInitialScene
    selectedObjectId := none
    promptHistory := []
    isLoading := false
    cameraTransition := { active := false } }

/-- `sceneReducer` from SceneContext.tsx, translated case by case. -/
def sceneReducer (state : SceneState) (action : SceneContextAction) : SceneState :=
  match action with
  | .setSceneData payload => { state with sceneData := payload }
  | .addObject payload =>
      { state with sceneData :=
          { state.sceneData with objects := state.sceneData.objects ++ [payload] } }
  | .removeObject payload =>
      { state with
          sceneData :=
            { state.sceneData with
                objects := state.sceneData.objects.filter (fun obj => !(obj.id == payload)) }
          selectedObjectId :=
            match state.selectedObjectId with
            | some sel => if sel == payload then none else some sel
            | none => none }
  | .updateObject id updates =>
      { state with sceneData :=
          { state.sceneData with
              objects := state.sceneData.objects.map
                (fun obj => if obj.id == id then applyUpdate obj updates else obj) } }
  | .selectObject payload => { state with selectedObjectId := payload }
  | .setCamera payload =>
      { state with sceneData :=
          { state.sceneData with camera :=
              { position := payload.position.getD state.sceneData.camera.position
                target := payload.target.getD state.sceneData.camera.target
                zoom := payload.zoom.getD state.sceneData.camera.zoom } } }
  | .setLighting payload =>
      { state with sceneData :=
          { state.sceneData with lighting :=
              { ambient_intensity :=
                  payload.ambient_intensity.getD state.sceneData.lighting.ambient_intensity
                directional_intensity :=
                  payload.directional_intensity.getD state.sceneData.lighting.directional_intensity
                directional_position :=
                  payload.directional_position.getD state.sceneData.lighting.directional_position } } }
  | .setEnvironment payload =>
      { state with sceneData :=
          { state.sceneData with environment :=
              { grid_visible := payload.grid_visible.getD state.sceneData.environment.grid_visible
                grid_size := payload.grid_size.getD state.sceneData.environment.grid_size
                background_color :=
                  payload.background_color.getD state.sceneData.environment.background_color } } }
  | .addPromptHistory payload =>
      { state with promptHistory := (payload :: state.promptHistory).take 50 }
  | .setLoading payload => { state with isLoading := payload }
  | .setCameraTransition payload => { state with cameraTransition := payload }
  | .resetScene keepDefaults =>
      { state with
          sceneData :=
            if keepDefaults then createInitialScene
            else
              { objects := []
                camera := defaultCamera
                lighting := defaultLighting
                environment := defaultEnvironment }
          selectedObjectId := none }

/-- The `params` bag of an AI `SceneAction` (`Record<string, unknown>` on
the wire).  Every field the `applyAction` switch reads is present as an
`Option`; `none` means the key is absent. -/
structure ActionParams where
  type : Option String := none
  name : Option String := none
  color : Option String := none
  axis : Option String := none
  direction : Option String := none
  position : Option Vector3 := none
  rotation : Option Vector3 := none
  scale : Option Vector3 := none
  delta : Option Vector3 := none
  size : Option Vector3 := none
  target : Option Vector3 := none
  degrees : Option ℚ := none
  factor : Option ℚ := none
  amount : Option ℚ := none
  duration : Option ℚ := none
  absolute : Option Bool := none
  visible : Option Bool := none
  animate : Option Bool := none
  keep_defaults : Option Bool := none
  ambient_intensity : Option ℚ := none
  directional_intensity : Option ℚ := none
  directional_position : Option Vector3 := none
deriving DecidableEq, Repr

/-- The AI-produced `SceneAction` from the frontend type declarations.
`action` is the `ActionType` string (kept as a string so that unknown
kinds arriving at runtime are representable, matching the defensive
default branch). -/
structure SceneAction where
  action : String
  target : Option String := none
  params : ActionParams := {}
deriving DecidableEq, Repr

/-- JavaScript `s || d` on an optional string field (`undefined` and the
empty string are falsy). -/
def jsStrOr (o : Option String) (d : String) : String :=
  match o with
  | some s => if s == "" then d else s
  | none => d

/-- JavaScript `n || d` on an optional numeric field (`undefined` and `0`
are falsy). -/
def jsNumOr (o : Option ℚ) (d : ℚ) : ℚ :=
  match o with
  | some a => if a == 0 then d else a
  | none => d

/-- JavaScript `if (target)` truthiness on `target : string | null`:
yields the id when it is present and non-empty. -/
def jsTarget (o : Option String) : Option String :=
  match o with
  | some s => if s == "" then none else some s
  | none => none

/-- One scheduled `setTimeout` callback: absolute fire time (ms) paired
with the reducer action the callback dispatches. -/
abbrev Timer := ℚ × SceneContextAction

/-- The `SceneObject` the `add_object` branch of `applyAction` builds from
the action's target and params (`tnow` stands for `Date.now()`). -/
def addObjectPayload (target : Option String) (p : ActionParams) (tnow : ℚ) : SceneObject :=
  { id := jsStrOr target ("obj_" ++ toString tnow)
    type := jsStrOr p.type "box"
    name := jsStrOr p.name "New Object"
    position := p.position.getD { x := 0, y := 0, z := 0 }
    rotation := p.rotation.getD { x := 0, y := 0, z := 0 }
    scale := p.scale.getD { x := 1, y := 1, z := 1 }
    color := jsStrOr p.color "#888888"
    visible := true }

/-- The `SceneObject` the `add_safety_zone` branch of `applyAction`
builds. -/
def safetyZonePayload (target : Option String) (p : ActionParams) (tnow : ℚ) : SceneObject :=
  { id := jsStrOr target ("safety_zone_" ++ toString tnow)
    type := "safety_zone"
    name := "Safety Zone"
    position := p.position.getD { x := 0, y := 1/20, z := 0 }
    rotation := { x := 0, y := 0, z := 0 }
    scale := p.size.getD { x := 5, y := 1/10, z := 5 }
    color := jsStrOr p.color "#ff4444"
    visible := true }

/-- The rotation vector the `rotate_object` branch computes: `degrees`
added to the component named by `axis`, the other two unchanged. -/
def rotatedVec (r : Vector3) (axis : Option String) (degrees : ℚ) : Vector3 :=
  { x := if axis == some "x" then r.x + degrees else r.x
    y := if axis == some "y" then r.y + degrees else r.y
    z := if axis == some "z" then r.z + degrees else r.z }

/-- `applyAction` from SceneContext.tsx, as the list of reducer actions it
dispatches plus the timers it schedules.  `snapshot` is the render state
the callback closed over (the `state` in its `useCallback` closure) and
`tnow` stands for `Date.now()` (also the base for `setTimeout` deadlines).
Branches whose parameters are missing in a way that would make the
original throw or poison a field with `NaN`/`undefined` (relative move
without `delta`, rotate without `degrees`, scale without `factor`,
`set_color`/`set_visibility`/`animate_object` without their value) are
modelled as dispatching nothing; no claim exercises those inputs. -/
def applyAction (snapshot : SceneState) (tnow : ℚ) (a : SceneAction) :
    List SceneContextAction × List Timer :=
  if a.action == "add_object" then
    ([.addObject (addObjectPayload a.target a.params tnow)], [])
  else if a.action == "remove_object" then
    match jsTarget a.target with
    | some t => ([.removeObject t], [])
    | none => ([], [])
  else if a.action == "move_object" then
    match jsTarget a.target with
    | some t =>
        if a.params.absolute.getD false then
          ([.updateObject t { position := a.params.position }], [])
        else
          match snapshot.sceneData.objects.find? (fun obj => obj.id == t),
                a.params.delta with
          | some targetObj, some delta =>
              ([.updateObject t
                 { position := some
                     { x := targetObj.position.x + delta.x
                       y := targetObj.position.y + delta.y
                       z := targetObj.position.z + delta.z } }], [])
          | _, _ => ([], [])
    | none => ([], [])
  else if a.action == "rotate_object" then
    match jsTarget a.target with
    | some t =>
        match snapshot.sceneData.objects.find? (fun obj => obj.id == t),
              a.params.degrees with
        | some targetObj, some degrees =>
            ([.updateObject t
               { rotation := some (rotatedVec targetObj.rotation a.params.axis degrees) }], [])
        | _, _ => ([], [])
    | none => ([], [])
  else if a.action == "scale_object" then
    match jsTarget a.target, a.params.factor with
    | some t, some factor =>
        ([.updateObject t { scale := some { x := factor, y := factor, z := factor } }], [])
    | _, _ => ([], [])
  else if a.action == "set_color" then
    match jsTarget a.target, a.params.color with
    | some t, some c => ([.updateObject t { color := some c }], [])
    | _, _ => ([], [])
  else if a.action == "set_visibility" then
    match jsTarget a.target, a.params.visible with
    | some t, some v => ([.updateObject t { visible := some v }], [])
    | _, _ => ([], [])
  else if a.action == "highlight_object" then
    match jsTarget a.target with
    | some t =>
        let duration := jsNumOr a.params.duration 3000
        ([.updateObject t { highlighted := some true }],
         [(tnow + duration, .updateObject t { highlighted := some false })])
    | none => ([], [])
  else if a.action == "camera_focus" || a.action == "camera_move" then
    ([.setCameraTransition
       { active := true
         targetPosition := a.params.position
         targetLookAt := a.params.target }], [])
  else if a.action == "camera_zoom" then
    let amount := jsNumOr a.params.amount (1/2)
    let zoomMultiplier :=
      if a.params.direction == some "in" then 1 + amount else 1 / (1 + amount)
    ([.setCamera { zoom := some zoomMultiplier }], [])
  else if a.action == "add_safety_zone" then
    ([.addObject (safetyZonePayload a.target a.params tnow)], [])
  else if a.action == "animate_object" then
    match jsTarget a.target, a.params.animate with
    | some t, some b => ([.updateObject t { animating := some b }], [])
    | _, _ => ([], [])
  else if a.action == "reset_scene" then
    ([.resetScene (a.params.keep_defaults.getD false)], [])
  else if a.action == "set_lighting" then
    ([.setLighting
       { ambient_intensity := a.params.ambient_intensity
         directional_intensity := a.params.directional_intensity
         directional_position := a.params.directional_position }], [])
  else
    -- default branch: console.warn only, nothing dispatched
    ([], [])

/-- Applying one `applyAction` call when the render snapshot is the
current state (a single action dispatched from its own event, with the
queued reducer actions then folded in order). -/
def applyActionNow (s : SceneState) (tnow : ℚ) (a : SceneAction) : SceneState :=
  ((applyAction s tnow a).1).foldl sceneReducer s

/-- `applyActions` from SceneContext.tsx: `actions.forEach(applyAction)`.
All calls run synchronously inside one event, so every call reads the
same closed-over render snapshot `s`; the dispatched reducer actions are
queued and folded in order. -/
def applyActions (s : SceneState) (tnow : ℚ) (actions : List SceneAction) : SceneState :=
  (actions.flatMap (fun a => (applyAction s tnow a).1)).foldl sceneReducer s

/-- Timers scheduled by one batch of `applyActions`. -/
def applyActionsTimers (s : SceneState) (tnow : ℚ) (actions : List SceneAction) : List Timer :=
  actions.flatMap (fun a => (applyAction s tnow a).2)

/-- First scene object with the given id (`objects.find`). -/
def findObj (s : SceneState) (id : String) : Option SceneObject :=
  s.sceneData.objects.find? (fun obj => obj.id == id)

/-- Insert a timer into a deadline-sorted pending list, after existing
timers with the same or an earlier deadline (the JavaScript timer queue
fires by deadline, ties in scheduling order). -/
def insertTimer (t : Timer) : List Timer → List Timer
  | [] => [t]
  | u :: rest => if u.1 ≤ t.1 then u :: insertTimer t rest else t :: u :: rest

/-- Schedule a list of freshly created timers into the pending queue. -/
def scheduleAll (ts : List Timer) (pend : List Timer) : List Timer :=
  ts.foldl (fun acc t => insertTimer t acc) pend

/-- Fire every pending timer whose deadline is at or before `now`, folding
each fired callback's dispatch through the reducer; the pending list is
deadline-sorted, so firing stops at the first timer that is not yet
due. -/
def fireDue (now : ℚ) : List Timer → SceneState → SceneState × List Timer
  | [], s => (s, [])
  | t :: rest, s =>
      if t.1 ≤ now then fireDue now rest (sceneReducer s t.2) else (s, t :: rest)

/-- Process one external event: first fire the timers due by the event's
time, then run `applyAction` at that time against the now-current state
(each event handler closes over the latest rendered state), queueing any
timers it creates. -/
def stepEvent (st : SceneState × List Timer) (ev : ℚ × SceneAction) :
    SceneState × List Timer :=
  let fired := fireDue ev.1 st.2 st.1
  let disp := applyAction fired.1 ev.1 ev.2
  (disp.1.foldl sceneReducer fired.1, scheduleAll disp.2 fired.2)

/-- Run a time-ordered list of single-action events from an initial state
with an empty timer queue. -/
def runEvents (init : SceneState) (evs : List (ℚ × SceneAction)) :
    SceneState × List Timer :=
  evs.foldl stepEvent (init, [])

/-- Observe the state at time `now`: fire every timer due by then. -/
def observeAt (st : SceneState × List Timer) (now : ℚ) : SceneState :=
  (fireDue now st.2 st.1).1

/-- The `ActionType` union from the frontend type declarations, in
declaration order. -/
def actionKinds : List String :=
  [ "add_object", "remove_object", "move_object", "rotate_object",
    "scale_object", "set_color", "set_visibility", "set_property",
    "camera_move", "camera_zoom", "camera_focus", "add_safety_zone",
    "set_lighting", "highlight_object", "animate_object", "reset_scene" ]

/-- A relative `move_object` of the default conveyor by `{x:2,y:0,z:0}`. -/
def moveRightTwo : SceneAction :=
  { action := "move_object"
    target := some "conveyor_1"
    params := { delta := some { x := 2, y := 0, z := 0 } } }

/-- A `rotate_object` action on a given target, axis and degree count. -/
def rotateAction (X : String) (axis : Option String) (deg : ℚ) : SceneAction :=
  { action := "rotate_object"
    target := some X
    params := { axis := axis, degrees := some deg } }

/-- A `highlight_object` action on a given target with optional duration. -/
def highlightAction (X : String) (dur : Option ℚ) : SceneAction :=
  { action := "highlight_object", target := some X, params := { duration := dur } }

/-- A `remove_object` action on a given target. -/
def removeAction (X : String) : SceneAction :=
  { action := "remove_object", target := some X }

/-- An `add_object` action reusing the default conveyor's id. -/
def addConveyorDup : SceneAction :=
  { action := "add_object", target := some "conveyor_1" }

/-- A `reset_scene` action with the given `keep_defaults` value set in an
otherwise arbitrary params bag. -/
def resetAction (tg : Option String) (p : ActionParams) (b : Bool) : SceneAction :=
  { action := "reset_scene", target := tg, params := { p with keep_defaults := some b } }

/-- The initial state with the camera zoom set to 2. -/
def zoom2State : SceneState :=
  { initialState with sceneData :=
      { initialState.sceneData with camera := { defaultCamera with zoom := 2 } } }

/-- The initial state with a camera transition in flight. -/
def transitionState : SceneState :=
  { initialState with cameraTransition :=
      { active := true, targetPosition := some { x := 1, y := 2, z := 3 } } }

/-- Timeline for the repeated-highlight scenario: highlight the conveyor
at t=0 (default duration 3000 ms) and again at t=1000. -/
def repeatedHighlightRun : SceneState × List Timer :=
  runEvents initialState
    [(0, highlightAction "conveyor_1" none), (1000, highlightAction "conveyor_1" none)]

/-- The highlight-then-remove scenario: highlight object `X` (scheduling
the reversal timer), remove `X` before the timer fires, then let every
scheduled timer dispatch fire.  Returns (state after the timers fired,
state just after the removal). -/
def highlightRemoveScenario (s : SceneState) (tnow dur : ℚ) (X : String) :
    SceneState × SceneState :=
  let hl := applyAction s tnow (highlightAction X (some dur))
  let afterHighlight := hl.1.foldl sceneReducer s
  let afterRemove := applyActionNow afterHighlight tnow (removeAction X)
  let afterTimeout := (hl.2.map Prod.snd).foldl sceneReducer afterRemove
  (afterTimeout, afterRemove)

/-- Mapping an id-keyed conditional update over a list rewrites its first
match: if `find?` locates `o`, the mapped list's first match is `g o`,
provided `g` preserves ids. -/
theorem find_map_update (X : String) (g : SceneObject → SceneObject)
    (hg : ∀ o, (g o).id = o.id) (l : List SceneObject) (o : SceneObject)
    (h : l.find? (fun obj => obj.id == X) = some o) :
    (l.map (fun obj => if obj.id == X then g obj else obj)).find?
      (fun obj => obj.id == X) = some (g o) := by
  induction l with
  | nil => simp at h
  | cons a l ih =>
    by_cases hid : (a.id == X) = true
    · rw [@List.find?_cons_of_pos _ (fun obj => obj.id == X) a l hid] at h
      obtain rfl : a = o := by simpa using h
      have h2 : ((g a).id == X) = true := by rw [hg]; exact hid
      simp only [List.map_cons, if_pos hid]
      exact @List.find?_cons_of_pos _ (fun obj => obj.id == X) (g a) _ h2
    · rw [@List.find?_cons_of_neg _ (fun obj => obj.id == X) a l hid] at h
      simp only [List.map_cons, if_neg hid]
      rw [@List.find?_cons_of_neg _ (fun obj => obj.id == X) a _ hid]
      exact ih h

/-- Mapping an id-keyed conditional update over a list with no matching
id leaves the list unchanged. -/
theorem map_update_of_no_match (X : String) (g : SceneObject → SceneObject)
    (l : List SceneObject) (h : ∀ o ∈ l, (o.id == X) = false) :
    l.map (fun obj => if obj.id == X then g obj else obj) = l := by
  induction l with
  | nil => rfl
  | cons a l ih =>
    have ha : ¬ (a.id == X) = true := by simp [h a (by simp)]
    simp only [List.map_cons, if_neg ha]
    rw [ih (fun o ho => h o (List.mem_cons_of_mem _ ho))]

/-- An `UPDATE_OBJECT` dispatch whose id matches no object is the
identity on the state. -/
theorem updateObject_no_match (s : SceneState) (X : String) (u : ObjectUpdate)
    (h : ∀ o ∈ s.sceneData.objects, (o.id == X) = false) :
    sceneReducer s (.updateObject X u) = s := by
  show { s with sceneData := { s.sceneData with objects := _ } } = s
  rw [map_update_of_no_match X (fun obj => applyUpdate obj u) _ h]

/-- After a `REMOVE_OBJECT` dispatch, no remaining object carries the
removed id. -/
theorem removeObject_clears (s : SceneState) (X : String) :
    ∀ o ∈ (sceneReducer s (.removeObject X)).sceneData.objects, (o.id == X) = false := by
  intro o ho
  have := (List.mem_filter.mp ho).2
  simpa using this

/-- C1: the claim says a batch applied through `applyActions` is a
sequential left fold in which each action observes the previous action's
output, so two relative moves by `{x:2,y:0,z:0}` net to 4.  In the code,
every `applyAction` call of the batch reads the same closed-over render
snapshot, so both moves compute `0 + 2` from the pre-batch position and
the net x-displacement is 2, not 4. -/
theorem c1_batch_move_nets_two :
    (findObj (applyActions initialState 0 [moveRightTwo, moveRightTwo]) "conveyor_1").map
        (fun o => o.position.x) = some 2 ∧
      ¬ ((findObj (applyActions initialState 0 [moveRightTwo, moveRightTwo]) "conveyor_1").map
        (fun o => o.position.x) = some 4) := by
  constructor
  · with_unfolding_all decide
  · with_unfolding_all decide

/-- C2 counterexample: with current zoom 2 and a `camera_zoom` in with the
default amount, the claim predicts zoom `2 * 1.5 = 3`, but the code sets
the zoom to the factor itself, yielding `1.5`. -/
theorem c2_zoom_not_multiplied :
    (applyActionNow zoom2State 0
        { action := "camera_zoom", params := { direction := some "in" } }).sceneData.camera.zoom
        = 3/2 ∧
      zoom2State.sceneData.camera.zoom * (1 + 1/2) = 3 ∧ (3/2 : ℚ) ≠ 3 := by
  refine ⟨by with_unfolding_all decide, by with_unfolding_all decide,
    by with_unfolding_all decide⟩

/-- C2 amended: a `camera_zoom` action replaces the camera zoom with the
factor derived from `params.direction` ("in" gives `1 + amount`,
anything else `1 / (1 + amount)`, with `amount` defaulting to 0.5 when
absent or zero); the previous zoom value does not enter. -/
theorem c2_zoom_sets_factor (s : SceneState) (t : ℚ) (tg : Option String) (p : ActionParams) :
    (applyActionNow s t { action := "camera_zoom", target := tg, params := p }).sceneData.camera.zoom
      = if p.direction == some "in" then 1 + jsNumOr p.amount (1/2)
        else 1 / (1 + jsNumOr p.amount (1/2)) := rfl

/-- C5 counterexample: applying `reset_scene` to a state with an active
camera transition leaves `cameraTransition.active` true, contradicting
the claim that the transition engine is idle afterwards. -/
theorem c5_reset_leaves_transition_active :
    ¬ ((applyActionNow transitionState 0
        { action := "reset_scene", params := { keep_defaults := some true } }).cameraTransition.active
      = false) := by
  with_unfolding_all decide

/-- C5 amended: `reset_scene` resets scene data and clears the selection
but leaves the `cameraTransition` slice of the state untouched, so an
in-flight transition is not cancelled by a scene reset. -/
theorem c5_reset_preserves_transition (s : SceneState) (t : ℚ) (tg : Option String)
    (p : ActionParams) :
    (applyActionNow s t { action := "reset_scene", target := tg, params := p }).cameraTransition
      = s.cameraTransition := rfl

/-- C6: `reset_scene` with `keep_defaults=true` restores exactly the
initial default scene (the conveyor and robot arm objects with their
default fields, plus default camera/lighting/environment) regardless of
the prior state; with `keep_defaults=false` it yields zero objects and
the default camera, lighting and environment; the selection is cleared
either way. -/
theorem c6_reset_scene_contents (s : SceneState) (t : ℚ) (tg : Option String)
    (p : ActionParams) :
    ((applyActionNow s t (resetAction tg p true)).sceneData = createInitialScene ∧
      (applyActionNow s t (resetAction tg p true)).sceneData.objects
        = [conveyorDefault, robotArmDefault] ∧
      (applyActionNow s t (resetAction tg p true)).selectedObjectId = none) ∧
    ((applyActionNow s t (resetAction tg p false)).sceneData.objects = [] ∧
      (applyActionNow s t (resetAction tg p false)).sceneData.camera = defaultCamera ∧
      (applyActionNow s t (resetAction tg p false)).sceneData.lighting = defaultLighting ∧
      (applyActionNow s t (resetAction tg p false)).sceneData.environment = defaultEnvironment ∧
      (applyActionNow s t (resetAction tg p false)).selectedObjectId = none) :=
  ⟨⟨rfl, rfl, rfl⟩, rfl, rfl, rfl, rfl, rfl⟩

/-- C3 counterexample: an `add_object` action carrying the id of the
existing default conveyor is not rejected: the state changes and the
resulting state holds two objects with id `conveyor_1`. -/
theorem c3_duplicate_id_not_rejected :
    applyActionNow initialState 0 addConveyorDup ≠ initialState ∧
      ((applyActionNow initialState 0 addConveyorDup).sceneData.objects.countP
        (fun o => o.id == "conveyor_1")) = 2 := by
  constructor
  · with_unfolding_all decide
  · with_unfolding_all decide

/-- C3 amended: `add_object` and `add_safety_zone` append the new object
unconditionally, with no duplicate-id check; when the id already exists
the resulting object list is not id-unique, so the reducer does not
maintain the id-uniqueness invariant. -/
theorem c3_add_appends_despite_existing_id (s : SceneState) (tnow : ℚ)
    (tg₁ tg₂ : Option String) (p₁ p₂ : ActionParams)
    (h₁ : ∃ o ∈ s.sceneData.objects, o.id = (addObjectPayload tg₁ p₁ tnow).id)
    (h₂ : ∃ o ∈ s.sceneData.objects, o.id = (safetyZonePayload tg₂ p₂ tnow).id) :
    ((applyActionNow s tnow
          { action := "add_object", target := tg₁, params := p₁ }).sceneData.objects
        = s.sceneData.objects ++ [addObjectPayload tg₁ p₁ tnow] ∧
      ¬ (applyActionNow s tnow
          { action := "add_object", target := tg₁, params := p₁ }).sceneData.objects.Pairwise
            (fun a b => a.id ≠ b.id)) ∧
    ((applyActionNow s tnow
          { action := "add_safety_zone", target := tg₂, params := p₂ }).sceneData.objects
        = s.sceneData.objects ++ [safetyZonePayload tg₂ p₂ tnow] ∧
      ¬ (applyActionNow s tnow
          { action := "add_safety_zone", target := tg₂, params := p₂ }).sceneData.objects.Pairwise
            (fun a b => a.id ≠ b.id)) := by
  refine ⟨⟨rfl, ?_⟩, rfl, ?_⟩
  · rw [show (applyActionNow s tnow
        { action := "add_object", target := tg₁, params := p₁ }).sceneData.objects
        = s.sceneData.objects ++ [addObjectPayload tg₁ p₁ tnow] from rfl]
    rw [List.pairwise_append]
    rintro ⟨-, -, hR⟩
    obtain ⟨o, ho, hid⟩ := h₁
    exact hR o ho (addObjectPayload tg₁ p₁ tnow) (by simp) hid
  · rw [show (applyActionNow s tnow
        { action := "add_safety_zone", target := tg₂, params := p₂ }).sceneData.objects
        = s.sceneData.objects ++ [safetyZonePayload tg₂ p₂ tnow] from rfl]
    rw [List.pairwise_append]
    rintro ⟨-, -, hR⟩
    obtain ⟨o, ho, hid⟩ := h₂
    exact hR o ho (safetyZonePayload tg₂ p₂ tnow) (by simp) hid

/-- C3 witness: the amended theorem applied to the initial scene, adding
an object with the conveyor's id and a safety zone with the robot arm's
id. -/
theorem c3_add_appends_witness :
    (∃ o ∈ initialState.sceneData.objects,
        o.id = (addObjectPayload (some "conveyor_1") {} 0).id) ∧
      (∃ o ∈ initialState.sceneData.objects,
        o.id = (safetyZonePayload (some "robot_arm_1") {} 0).id) ∧
      (((applyActionNow initialState 0
            { action := "add_object", target := some "conveyor_1",
              params := {} }).sceneData.objects
          = initialState.sceneData.objects ++ [addObjectPayload (some "conveyor_1") {} 0] ∧
        ¬ (applyActionNow initialState 0
            { action := "add_object", target := some "conveyor_1",
              params := {} }).sceneData.objects.Pairwise (fun a b => a.id ≠ b.id)) ∧
      ((applyActionNow initialState 0
            { action := "add_safety_zone", target := some "robot_arm_1",
              params := {} }).sceneData.objects
          = initialState.sceneData.objects ++ [safetyZonePayload (some "robot_arm_1") {} 0] ∧
        ¬ (applyActionNow initialState 0
            { action := "add_safety_zone", target := some "robot_arm_1",
              params := {} }).sceneData.objects.Pairwise (fun a b => a.id ≠ b.id))) :=
  ⟨by with_unfolding_all decide, by with_unfolding_all decide,
    c3_add_appends_despite_existing_id initialState 0 (some "conveyor_1") (some "robot_arm_1")
      {} {} (by with_unfolding_all decide) (by with_unfolding_all decide)⟩

/-- C4 counterexample: highlighting the conveyor at t=0 and again at
t=1000 (default duration 3000 each) leaves the highlighted flag already
reverted to false at t=3500, although the second action's duration only
elapses at t=4000 — the second highlight did not cancel or restart the
first pending reversal. -/
theorem c4_highlight_reverted_before_second_duration :
    (findObj (observeAt repeatedHighlightRun 3500) "conveyor_1").map (fun o => o.highlighted)
        = some (some false) ∧ (3500 : ℚ) < 1000 + 3000 := by
  constructor
  · with_unfolding_all decide
  · with_unfolding_all decide

set_option maxRecDepth 4000 in
/-- C4 amended: a repeated `highlight_object` on the same id leaves the
prior pending reversal in place (both reversal timers stay scheduled),
so the highlighted flag reverts to false when the first reversal fires
at t=3000 — after the first action's duration, not the second's. -/
theorem c4_first_reversal_still_fires :
    (findObj (observeAt repeatedHighlightRun 2999) "conveyor_1").map (fun o => o.highlighted)
        = some (some true) ∧
      (findObj (observeAt repeatedHighlightRun 3000) "conveyor_1").map (fun o => o.highlighted)
        = some (some false) ∧
      repeatedHighlightRun.2
        = [(3000, .updateObject "conveyor_1" { highlighted := some false }),
           (4000, .updateObject "conveyor_1" { highlighted := some false })] := by
  refine ⟨?_, ?_, ?_⟩
  · with_unfolding_all decide
  · with_unfolding_all decide
  · with_unfolding_all rfl

/-- C7: an action whose kind is not one of the enumerated `ActionType`
values dispatches nothing and schedules nothing, so the state is
returned unchanged; the embedding is total, so no exception is
possible. -/
theorem c7_unknown_kind_is_noop (s : SceneState) (t : ℚ) (a : SceneAction)
    (h : a.action ∉ actionKinds) :
    applyActionNow s t a = s ∧ (applyAction s t a).2 = [] := by
  simp only [actionKinds, List.mem_cons, List.not_mem_nil, or_false, not_or] at h
  obtain ⟨h1, h2, h3, h4, h5, h6, h7, h8, h9, h10, h11, h12, h13, h14, h15, h16⟩ := h
  constructor
  · simp [applyActionNow, applyAction, h1, h2, h3, h4, h5, h6, h7, h9, h10, h11, h12,
      h13, h14, h15, h16]
  · simp [applyAction, h1, h2, h3, h4, h5, h6, h7, h9, h10, h11, h12, h13, h14, h15, h16]

/-- C7 witness: the theorem applied to a typo'd action kind on the
initial state. -/
theorem c7_unknown_kind_witness :
    ({ action := "frobnicate" } : SceneAction).action ∉ actionKinds ∧
      (applyActionNow initialState 0 { action := "frobnicate" } = initialState ∧
        (applyAction initialState 0 { action := "frobnicate" }).2 = []) :=
  ⟨by decide, c7_unknown_kind_is_noop initialState 0 { action := "frobnicate" } (by decide)⟩

/-- C8: if an object is highlighted and then removed before the highlight
duration elapses, the deferred reversal dispatch is a no-op on the
post-removal state (total, no exception) and the removed object is not
revived: no object with that id exists after the timer fires. -/
theorem c8_removed_object_not_revived (s : SceneState) (tnow dur : ℚ) (X : String)
    (hX : X ≠ "") :
    (highlightRemoveScenario s tnow dur X).1 = (highlightRemoveScenario s tnow dur X).2 ∧
      ∀ o ∈ (highlightRemoveScenario s tnow dur X).1.sceneData.objects, o.id ≠ X := by
  have hX' : (X == "") = false := by simpa using hX
  have e1 : (highlightRemoveScenario s tnow dur X).2
      = sceneReducer (sceneReducer s (.updateObject X { highlighted := some true }))
          (.removeObject X) := by
    simp [highlightRemoveScenario, applyAction, applyActionNow, highlightAction,
      removeAction, jsTarget, hX']
  have e2 : (highlightRemoveScenario s tnow dur X).1
      = sceneReducer (highlightRemoveScenario s tnow dur X).2
          (.updateObject X { highlighted := some false }) := by
    conv_lhs => rw [highlightRemoveScenario]
    simp [highlightRemoveScenario, applyAction, applyActionNow, highlightAction,
      removeAction, jsTarget, hX']
  have hno : ∀ o ∈ (highlightRemoveScenario s tnow dur X).2.sceneData.objects,
      (o.id == X) = false := by
    rw [e1]; exact removeObject_clears _ X
  constructor
  · rw [e2]; exact updateObject_no_match _ X _ hno
  · intro o ho
    rw [e2, updateObject_no_match _ X _ hno] at ho
    have := hno o ho
    simpa using this

/-- C8 witness: the theorem applied to the initial scene's conveyor with
a 3000 ms highlight duration. -/
theorem c8_removed_object_witness :
    ("conveyor_1" : String) ≠ "" ∧
      ((highlightRemoveScenario initialState 0 3000 "conveyor_1").1
          = (highlightRemoveScenario initialState 0 3000 "conveyor_1").2 ∧
        ∀ o ∈ (highlightRemoveScenario initialState 0 3000 "conveyor_1").1.sceneData.objects,
          o.id ≠ "conveyor_1") :=
  ⟨by decide, c8_removed_object_not_revived initialState 0 3000 "conveyor_1" (by decide)⟩

/-- Applying one `rotate_object` event to a state whose first object with
the target id is `o` replaces that object's rotation by `rotatedVec`. -/
theorem rotate_step (s : SceneState) (t : ℚ) (X : String) (o : SceneObject)
    (axis : Option String) (deg : ℚ) (hX : X ≠ "") (h : findObj s X = some o) :
    findObj (applyActionNow s t (rotateAction X axis deg)) X
      = some { o with rotation := rotatedVec o.rotation axis deg } := by
  have hX' : (X == "") = false := by simpa using hX
  have hfind : s.sceneData.objects.find? (fun obj => obj.id == X) = some o := h
  have edisp : applyAction s t (rotateAction X axis deg)
      = ([.updateObject X { rotation := some (rotatedVec o.rotation axis deg) }], []) := by
    simp [applyAction, rotateAction, jsTarget, hX', hfind]
  unfold applyActionNow
  rw [edisp]
  simp only [List.foldl_cons, List.foldl_nil]
  unfold findObj
  show (s.sceneData.objects.map
      (fun obj => if obj.id == X
        then applyUpdate obj { rotation := some (rotatedVec o.rotation axis deg) }
        else obj)).find? (fun obj => obj.id == X) = _
  rw [find_map_update X
    (fun obj => applyUpdate obj { rotation := some (rotatedVec o.rotation axis deg) })
    (fun o' => rfl) s.sceneData.objects o hfind]
  rfl

/-- C9: `rotate_object` on an existing target adds `params.degrees` to
the rotation component named by `params.axis` and leaves the other two
components (and the object's other fields) unchanged; two successive
applications on axis y with 45 degrees each accumulate to
`rotation.y + 90` without wraparound. -/
theorem c9_rotate_object_adds (s : SceneState) (t : ℚ) (X : String) (o : SceneObject)
    (axis : Option String) (deg : ℚ) (hX : X ≠ "") (h : findObj s X = some o) :
    findObj (applyActionNow s t (rotateAction X axis deg)) X
        = some { o with rotation := rotatedVec o.rotation axis deg } ∧
      findObj (applyActionNow (applyActionNow s t (rotateAction X (some "y") 45)) t
          (rotateAction X (some "y") 45)) X
        = some { o with rotation := { o.rotation with y := o.rotation.y + 90 } } := by
  refine ⟨rotate_step s t X o axis deg hX h, ?_⟩
  have h1 := rotate_step s t X o (some "y") 45 hX h
  have h2 := rotate_step (applyActionNow s t (rotateAction X (some "y") 45)) t X
    { o with rotation := rotatedVec o.rotation (some "y") 45 } (some "y") 45 hX h1
  rw [h2]
  have e : rotatedVec (rotatedVec o.rotation (some "y") 45) (some "y") 45
      = { x := o.rotation.x, y := o.rotation.y + 45 + 45, z := o.rotation.z } := rfl
  rw [e]
  have e2 : o.rotation.y + 45 + 45 = o.rotation.y + 90 := by
    rw [add_assoc]; norm_num
  rw [e2]

/-- C9 witness: the theorem applied to the initial scene's robot arm
(default rotation `{x:0, y:45, z:0}`) with axis x and 30 degrees. -/
theorem c9_rotate_object_witness :
    ("robot_arm_1" : String) ≠ "" ∧
      findObj initialState "robot_arm_1" = some robotArmDefault ∧
      (findObj (applyActionNow initialState 0 (rotateAction "robot_arm_1" (some "x") 30))
            "robot_arm_1"
          = some { robotArmDefault with
              rotation := rotatedVec robotArmDefault.rotation (some "x") 30 } ∧
        findObj (applyActionNow
              (applyActionNow initialState 0 (rotateAction "robot_arm_1" (some "y") 45)) 0
              (rotateAction "robot_arm_1" (some "y") 45)) "robot_arm_1"
          = some { robotArmDefault with
              rotation := { robotArmDefault.rotation with
                y := robotArmDefault.rotation.y + 90 } }) :=
  ⟨by decide, by with_unfolding_all decide,
    c9_rotate_object_adds initialState 0 "robot_arm_1" robotArmDefault (some "x") 30
      (by decide) (by with_unfolding_all decide)⟩

/-- C10: every object inserted by `add_object` or `add_safety_zone` is
appended with `visible = true` and without the `highlighted` or
`animating` flags, whatever the action's params. -/
theorem c10_inserted_objects_start_visible (s : SceneState) (tnow : ℚ) (tg : Option String)
    (p : ActionParams) :
    ((applyActionNow s tnow { action := "add_object", target := tg, params := p }).sceneData.objects
        = s.sceneData.objects ++ [addObjectPayload tg p tnow] ∧
      (addObjectPayload tg p tnow).visible = true ∧
      (addObjectPayload tg p tnow).highlighted = none ∧
      (addObjectPayload tg p tnow).animating = none) ∧
    ((applyActionNow s tnow
          { action := "add_safety_zone", target := tg, params := p }).sceneData.objects
        = s.sceneData.objects ++ [safetyZonePayload tg p tnow] ∧
      (safetyZonePayload tg p tnow).visible = true ∧
      (safetyZonePayload tg p tnow).highlighted = none ∧
      (safetyZonePayload tg p tnow).animating = none) :=
  ⟨⟨rfl, rfl, rfl, rfl⟩, rfl, rfl, rfl, rfl⟩

end Studio
